import Mathlib

/-!
Verification of the 4E-Manager relay server (`src/index.js`, second variant —
the spec designates the first variant's handlers as discarded placeholders).

The server holds a process-local snapshot store mapping SKU to fetched variant
data.  `GET /fetch` queries the representative shop's GraphQL API by SKU,
extracts the numeric variant id from the global id, and stores the variant.
`POST /update` fans field changes out to each selected shop via REST calls,
using the stored numeric variant id.

We embed the two handlers as pure functions.  The environment (the upstream
API's answers to the outbound calls) is passed in explicitly: the fetch
handler receives the upstream's reply as a value, and the update handler
receives an oracle assigning an outcome to each outbound call.  Each handler
returns its HTTP response, the resulting snapshot store, and the list (or
count) of outbound calls it issued, so that frame and call-count properties
are statable.
-/

namespace FourE

/-- A variant node as returned by the upstream GraphQL query
(`data.data.productVariants.edges[i].node` in `index.js`). -/
structure Variant where
  id : String
  sku : String
  price : String
  inventoryQuantity : Int
  productTitle : String
  imageSrc : String
deriving Repr, DecidableEq

/-- A snapshot-store entry: the fetched variant spread together with the
derived `numericVariantId` (`memorySnapshot[sku] = { ...variant, numericVariantId }`). -/
structure Snapshot where
  variant : Variant
  numericVariantId : String
deriving Repr, DecidableEq

/-- The snapshot store: an in-memory mapping from SKU to last-fetched entry
(`let memorySnapshot = {}` in `index.js`). -/
def SnapshotStore := String → Option Snapshot

/-- JavaScript `String.prototype.split` with a one-character separator, on
the character list: `"".split(sep)` is `[""]`, and separators delimit
(possibly empty) segments. -/
def splitList (sep : Char) : List Char → List (List Char)
  | [] => [[]]
  | c :: cs =>
    match splitList sep cs with
    | [] => [[]]
    | seg :: rest => if c = sep then [] :: seg :: rest else (c :: seg) :: rest

/-- `variant.id.split('/').pop()` from `index.js`: split on `'/'` and take
the last element (the split of a string is never empty, so `pop` is total
here). -/
def lastSegment (s : String) : String :=
  ⟨(splitList '/' s.data).getLastD []⟩

/-- The upstream's reply to the fetch handler's single GraphQL POST:
either the transport threw (`catch (err)`), or a response arrived whose
`data` may carry a GraphQL `errors` payload and carries the list of matching
edges (each edge's `node`). -/
inductive UpstreamFetch where
  | transport (message : String)
  | response (errors : Option String) (edges : List Variant)
deriving Repr, DecidableEq

/-- The fetch handler's HTTP response, one constructor per `res.…` site in
the `/fetch` handler of `index.js`. -/
inductive FetchResponse where
  | badRequest
  | upstreamError (errors : String)
  | notFound
  | ok (data : Snapshot)
  | transportError (details : String)
deriving Repr, DecidableEq

/-- HTTP status of each fetch response (`res.status(...)` in `index.js`;
`res.json` with no status is 200). -/
def fetchStatus : FetchResponse → Nat
  | .badRequest => 400
  | .upstreamError _ => 500
  | .notFound => 404
  | .ok _ => 200
  | .transportError _ => 500

/-- The JSON body shape the fetch handler sends: optional `error`,
`details`, `message` and `data` fields. -/
structure FetchBody where
  error : Option String
  details : Option String
  message : Option String
  dataField : Option Snapshot
deriving Repr, DecidableEq

/-- The JSON body of each fetch response, field for field from the
`res.json({...})` calls in `index.js`. -/
def fetchBody : FetchResponse → FetchBody
  | .badRequest => ⟨some "Missing 'sku' query parameter.", none, none, none⟩
  | .upstreamError errs => ⟨some errs, none, none, none⟩
  | .notFound => ⟨some "SKU not found", none, none, none⟩
  | .ok d => ⟨none, none, some "Fetch completed successfully.", some d⟩
  | .transportError msg => ⟨some "Fetch failed", some msg, none, none⟩

/-- Result of one fetch-handler invocation: the response, the snapshot store
afterwards, and how many outbound calls to the representative shop were
issued. -/
structure FetchOutput where
  response : FetchResponse
  store : SnapshotStore
  outboundCalls : Nat

/-- The `GET /fetch` handler (second variant of `index.js`).
`skuParam` is `req.query.sku` (`none` when the parameter is absent); the
JavaScript guard `if (!sku)` also rejects the empty string.  On a response
the handler checks `data.errors` first, then the edge list; on a match it
derives `numericVariantId` from the node's global id and overwrites the
store entry keyed by the requested SKU. -/
def fetchHandler (snap : SnapshotStore) (skuParam : Option String)
    (upstream : UpstreamFetch) : FetchOutput :=
  match skuParam with
  | none => ⟨.badRequest, snap, 0⟩
  | some sku =>
    if sku = "" then ⟨.badRequest, snap, 0⟩
    else
      match upstream with
      | .transport msg => ⟨.transportError msg, snap, 1⟩
      | .response (some errs) _ => ⟨.upstreamError errs, snap, 1⟩
      | .response none [] => ⟨.notFound, snap, 1⟩
      | .response none (v :: _) =>
        let entry : Snapshot := ⟨v, lastSegment v.id⟩
        ⟨.ok entry, fun k => if k = sku then some entry else snap k, 1⟩

/-- A configured shop from `SHOPIFY_SHOPS` in `index.js`. -/
structure Shop where
  name : String
  domain : String
  token : String
deriving Repr, DecidableEq

/-- `SHOPIFY_SHOPS.find(s => s.name === shopName)` from `index.js`. -/
def findShop (registry : List Shop) (shopName : String) : Option Shop :=
  registry.find? (fun s => s.name == shopName)

/-- One row of the update request body (`{ sku, changes, rowNumber }`);
`changes` is a mapping from field name to new value. -/
structure Row where
  sku : String
  changes : List (String × String)
  rowNumber : Nat
deriving Repr, DecidableEq

/-- The REST update URL built in `index.js`:
`https://${shop.domain}/admin/api/2023-04/variants/${numericId}.json`. -/
def shopUrl (domain numericId : String) : String :=
  "https://" ++ domain ++ "/admin/api/2023-04/variants/" ++ numericId ++ ".json"

/-- One outbound `axios.put` issued by the update handler: its URL, the
`{ variant: changes }` payload and the shop's access token header. -/
structure ShopCall where
  url : String
  payload : List (String × String)
  token : String
deriving Repr, DecidableEq

/-- Outcome of one outbound update call, as the handler's `catch` observes
it: success, or an error; on error `responseErrors` is
`JSON.stringify(err.response.data.errors)` when the transport produced a
response (`err.response` present) and `none` on a pure transport failure,
and `message` is `err.message`. -/
inductive CallOutcome where
  | success
  | failure (responseErrors : Option String) (message : String)
deriving Repr, DecidableEq

/-- The failure message interpolation in `index.js`:
`Update failed: ${err.response ? JSON.stringify(err.response.data.errors) : err.message}`. -/
def failureMessage : Option String → String → String
  | some errs, _ => "Update failed: " ++ errs
  | none, msg => "Update failed: " ++ msg

/-- One entry of the update handler's result list.  A row whose SKU is not
in the snapshot store yields a `skipped` entry carrying the whole list of
selected shop names; each attempted (row, shop) call yields a `perShop`
entry. -/
inductive UpdateResult where
  | skipped (sku : String) (rowNumber : Nat) (shops : List String) (message : String)
  | perShop (sku : String) (rowNumber : Nat) (shop : String) (message : String)
deriving Repr, DecidableEq

/-- The skip message pushed for a row whose SKU has no snapshot entry. -/
def skipMessage : String := "SKU not found in snapshot, skipping update."

/-- The call the update handler issues for one resolved shop: URL from the
shop's domain and the numeric variant id, payload from the row's changes,
token from the shop. -/
def mkCall (shop : Shop) (numericId : String) (changes : List (String × String)) : ShopCall :=
  ⟨shopUrl shop.domain numericId, changes, shop.token⟩

/-- The result entry recorded for one attempted (row, shop) call, from the
`try`/`catch` around `axios.put` in `index.js`. -/
def shopResult (oracle : ShopCall → CallOutcome) (row : Row) (shopName : String)
    (call : ShopCall) : UpdateResult :=
  match oracle call with
  | .success => .perShop row.sku row.rowNumber shopName "Update successful"
  | .failure errs msg => .perShop row.sku row.rowNumber shopName (failureMessage errs msg)

/-- The inner `for (const shopName of selectedShops)` loop of the update
handler: resolve each name in the registry (`continue` silently when it does
not resolve), issue one call per resolved shop in order, and record one
result per call.  Returns the results and the calls issued, in order. -/
def processShops (registry : List Shop) (oracle : ShopCall → CallOutcome)
    (row : Row) (numericId : String) :
    List String → List UpdateResult × List ShopCall
  | [] => ([], [])
  | shopName :: rest =>
    match findShop registry shopName with
    | none => processShops registry oracle row numericId rest
    | some shop =>
      let call := mkCall shop numericId row.changes
      let tail := processShops registry oracle row numericId rest
      (shopResult oracle row shopName call :: tail.1, call :: tail.2)

/-- The per-row body of the update handler's outer loop: look the row's SKU
up in the snapshot store; if absent, push the single skip entry and
`continue` (no calls); otherwise fan out over the selected shops with the
stored entry's `numericVariantId`. -/
def processRow (registry : List Shop) (snap : SnapshotStore)
    (oracle : ShopCall → CallOutcome) (selectedShops : List String)
    (row : Row) : List UpdateResult × List ShopCall :=
  match snap row.sku with
  | none => ([.skipped row.sku row.rowNumber selectedShops skipMessage], [])
  | some fetched => processShops registry oracle row fetched.numericVariantId selectedShops

/-- The outer `for (const row of updatedRows)` loop: rows in order, results
and calls concatenated. -/
def processRows (registry : List Shop) (snap : SnapshotStore)
    (oracle : ShopCall → CallOutcome) (selectedShops : List String) :
    List Row → List UpdateResult × List ShopCall
  | [] => ([], [])
  | row :: rest =>
    let head := processRow registry snap oracle selectedShops row
    let tail := processRows registry snap oracle selectedShops rest
    (head.1 ++ tail.1, head.2 ++ tail.2)

/-- The update request body: `updatedRows` and `selectedShops`, each
`none` when the field is absent from the JSON body. -/
structure UpdateBody where
  updatedRows : Option (List Row)
  selectedShops : Option (List String)
deriving Repr, DecidableEq

/-- The update handler's HTTP response: 400 on missing fields, otherwise
200 with the message and the full result list. -/
inductive UpdateResponse where
  | badRequest (error : String)
  | ok (message : String) (results : List UpdateResult)
deriving Repr, DecidableEq

/-- HTTP status of each update response. -/
def updateStatus : UpdateResponse → Nat
  | .badRequest _ => 400
  | .ok _ _ => 200

/-- Result of one update-handler invocation: the response, the snapshot
store afterwards, and the outbound calls issued, in order. -/
structure UpdateOutput where
  response : UpdateResponse
  store : SnapshotStore
  outboundCalls : List ShopCall

/-- The `POST /update` handler (second variant of `index.js`): reject with
400 when either body field is missing (before touching the snapshot store),
otherwise run the row loop and answer 200 with the collected results.  The
handler never writes to the snapshot store. -/
def updateHandler (registry : List Shop) (snap : SnapshotStore)
    (oracle : ShopCall → CallOutcome) (body : UpdateBody) : UpdateOutput :=
  match body.updatedRows, body.selectedShops with
  | some rows, some shops =>
    let r := processRows registry snap oracle shops rows
    ⟨.ok "Update process completed." r.1, snap, r.2⟩
  | _, _ =>
    ⟨.badRequest "Missing 'updatedRows' or 'selectedShops' in request body.", snap, []⟩

/-! ### Helper lemmas -/

/-- The update URL determines the variant-id segment: two URLs built for the
same domain agree only if they were built from the same identifier. -/
theorem shopUrl_inj (d a b : String) (h : shopUrl d a = shopUrl d b) : a = b := by
  have hd := congrArg String.data h
  simp only [shopUrl, String.data_append, List.append_assoc] at hd
  have h1 := List.append_cancel_left hd
  have h2 := List.append_cancel_left h1
  have h3 := List.append_cancel_left h2
  exact String.ext (List.append_cancel_right h3)

/-- Closed form of the inner shop loop: the results and the calls are each
obtained by resolving every selected name in order and keeping the
resolvable ones. -/
theorem processShops_eq (registry : List Shop) (oracle : ShopCall → CallOutcome)
    (row : Row) (numericId : String) (names : List String) :
    processShops registry oracle row numericId names =
      (names.filterMap (fun name => (findShop registry name).map
         (fun shop => shopResult oracle row name (mkCall shop numericId row.changes))),
       names.filterMap (fun name => (findShop registry name).map
         (fun shop => mkCall shop numericId row.changes))) := by
  induction names with
  | nil => rfl
  | cons name rest ih =>
    cases hfind : findShop registry name with
    | none => simp [processShops, hfind, List.filterMap_cons, ih]
    | some shop => simp [processShops, hfind, List.filterMap_cons, ih]

/-- Keeping one value per resolvable name yields as many values as there are
resolvable names. -/
theorem filterMap_findShop_length {α : Type} (registry : List Shop)
    (g : String → Shop → α) (names : List String) :
    (names.filterMap (fun name => (findShop registry name).map (g name))).length =
      (names.filter (fun name => (findShop registry name).isSome)).length := by
  induction names with
  | nil => rfl
  | cons name rest ih =>
    cases hfind : findShop registry name <;>
      simp [List.filterMap_cons, List.filter_cons, hfind, ih]

/-! ### Claim theorems -/

/-- C2: a fetch request with no `sku` query parameter is answered 400 with
an error body, the snapshot store is returned exactly unchanged, and no
outbound call to the representative shop's API is issued. -/
theorem fetch_missing_sku_rejected (snap : SnapshotStore) (upstream : UpstreamFetch) :
    fetchHandler snap none upstream = ⟨.badRequest, snap, 0⟩ ∧
    fetchStatus (fetchHandler snap none upstream).response = 400 ∧
    (fetchBody (fetchHandler snap none upstream).response).error =
      some "Missing 'sku' query parameter." :=
  ⟨rfl, rfl, rfl⟩

/-- C4: fetching a SKU for which the upstream query returns zero matching
variants is answered with the 404 not-found response, and the snapshot
store is returned exactly unchanged (no entry created or modified for any
SKU). -/
theorem fetch_no_match_not_found (snap : SnapshotStore) (sku : String)
    (h : sku ≠ "") :
    fetchHandler snap (some sku) (.response none []) = ⟨.notFound, snap, 1⟩ ∧
    fetchStatus (fetchHandler snap (some sku) (.response none [])).response = 404 := by
  simp [fetchHandler, fetchStatus, h]

/-- Witness for C4 at a concrete store and SKU. -/
theorem fetch_no_match_not_found_witness :
    fetchHandler (fun _ => none) (some "SKU123") (.response none []) =
      ⟨.notFound, (fun _ => none), 1⟩ ∧
    fetchStatus (fetchHandler (fun _ => none) (some "SKU123")
      (.response none [])).response = 404 :=
  fetch_no_match_not_found (fun _ => none) "SKU123" (by decide)

/-- C10: the update handler never creates, modifies or deletes a snapshot
store entry — whatever the body, registry and call outcomes, the store it
returns is exactly the store it was given. -/
theorem update_preserves_store (registry : List Shop) (snap : SnapshotStore)
    (oracle : ShopCall → CallOutcome) (body : UpdateBody) :
    (updateHandler registry snap oracle body).store = snap := by
  obtain ⟨ur, ss⟩ := body
  cases ur <;> cases ss <;> rfl

/-- C3: an update request missing `updatedRows` or missing `selectedShops`
is answered 400 (not 500) with an error body, issues zero outbound calls,
and performs no snapshot-store read — the response is the same whatever the
store (and whatever the call oracle). -/
theorem update_missing_fields_rejected (registry : List Shop)
    (snap snap' : SnapshotStore) (oracle oracle' : ShopCall → CallOutcome)
    (body : UpdateBody)
    (h : body.updatedRows = none ∨ body.selectedShops = none) :
    (updateHandler registry snap oracle body).response =
      .badRequest "Missing 'updatedRows' or 'selectedShops' in request body." ∧
    updateStatus (updateHandler registry snap oracle body).response = 400 ∧
    (updateHandler registry snap oracle body).outboundCalls = [] ∧
    (updateHandler registry snap oracle body).response =
      (updateHandler registry snap' oracle' body).response := by
  obtain ⟨ur, ss⟩ := body
  rcases h with h | h
  · simp only at h
    subst h
    exact ⟨rfl, rfl, rfl, rfl⟩
  · simp only at h
    subst h
    cases ur <;> exact ⟨rfl, rfl, rfl, rfl⟩

/-- Witness for C3 at a concrete malformed body (missing `selectedShops`). -/
theorem update_missing_fields_rejected_witness :
    (updateHandler [] (fun _ => none) (fun _ => .success)
        ⟨some [⟨"SKU123", [("price", "25.99")], 1⟩], none⟩).response =
      .badRequest "Missing 'updatedRows' or 'selectedShops' in request body." ∧
    updateStatus ((updateHandler [] (fun _ => none) (fun _ => .success)
        ⟨some [⟨"SKU123", [("price", "25.99")], 1⟩], none⟩).response) = 400 ∧
    (updateHandler [] (fun _ => none) (fun _ => .success)
        ⟨some [⟨"SKU123", [("price", "25.99")], 1⟩], none⟩).outboundCalls = [] ∧
    (updateHandler [] (fun _ => none) (fun _ => .success)
        ⟨some [⟨"SKU123", [("price", "25.99")], 1⟩], none⟩).response =
      (updateHandler [] (fun _ => some ⟨⟨"id", "SKU123", "1", 1, "t", "i"⟩, "1"⟩)
        (fun _ => .failure none "boom")
        ⟨some [⟨"SKU123", [("price", "25.99")], 1⟩], none⟩).response :=
  update_missing_fields_rejected [] (fun _ => none)
    (fun _ => some ⟨⟨"id", "SKU123", "1", 1, "t", "i"⟩, "1"⟩)
    (fun _ => .success) (fun _ => .failure none "boom")
    ⟨some [⟨"SKU123", [("price", "25.99")], 1⟩], none⟩ (Or.inr rfl)

/-- C5: an update row whose SKU has no snapshot-store entry yields exactly
one result — the skip entry listing all requested target shops with the
skip message — and zero outbound calls for that row; through the handler, a
request consisting of that row alone is answered 200 with exactly that one
result and no outbound call. -/
theorem update_unknown_sku_skipped (registry : List Shop) (snap : SnapshotStore)
    (oracle : ShopCall → CallOutcome) (selected : List String) (row : Row)
    (h : snap row.sku = none) :
    processRow registry snap oracle selected row =
      ([.skipped row.sku row.rowNumber selected skipMessage], []) ∧
    (updateHandler registry snap oracle ⟨some [row], some selected⟩).response =
      .ok "Update process completed."
        [.skipped row.sku row.rowNumber selected skipMessage] ∧
    (updateHandler registry snap oracle ⟨some [row], some selected⟩).outboundCalls = [] := by
  refine ⟨by simp [processRow, h], ?_, ?_⟩ <;>
    simp [updateHandler, processRows, processRow, h]

/-- Witness for C5 at an empty store and a concrete row. -/
theorem update_unknown_sku_skipped_witness :
    processRow [⟨"SI", "si.example.com", "tokSI"⟩] (fun _ => none)
        (fun _ => .success) ["SI", "HR"] ⟨"SKU123", [("price", "25.99")], 1⟩ =
      ([.skipped "SKU123" 1 ["SI", "HR"] skipMessage], []) ∧
    (updateHandler [⟨"SI", "si.example.com", "tokSI"⟩] (fun _ => none)
        (fun _ => .success)
        ⟨some [⟨"SKU123", [("price", "25.99")], 1⟩], some ["SI", "HR"]⟩).response =
      .ok "Update process completed." [.skipped "SKU123" 1 ["SI", "HR"] skipMessage] ∧
    (updateHandler [⟨"SI", "si.example.com", "tokSI"⟩] (fun _ => none)
        (fun _ => .success)
        ⟨some [⟨"SKU123", [("price", "25.99")], 1⟩], some ["SI", "HR"]⟩).outboundCalls = [] :=
  update_unknown_sku_skipped [⟨"SI", "si.example.com", "tokSI"⟩] (fun _ => none)
    (fun _ => .success) ["SI", "HR"] ⟨"SKU123", [("price", "25.99")], 1⟩ rfl

/-- C6: for an update row whose SKU is in the snapshot store, the row's
results are exactly one per selected shop name that resolves in the
registry, in the order given, and none for unresolvable names; in
particular their number is the number of resolvable names. -/
theorem update_one_result_per_resolvable_shop (registry : List Shop)
    (snap : SnapshotStore) (oracle : ShopCall → CallOutcome)
    (selected : List String) (row : Row) (fetched : Snapshot)
    (h : snap row.sku = some fetched) :
    (processRow registry snap oracle selected row).1 =
      selected.filterMap (fun name => (findShop registry name).map
        (fun shop => shopResult oracle row name
          (mkCall shop fetched.numericVariantId row.changes))) ∧
    (processRow registry snap oracle selected row).1.length =
      (selected.filter (fun name => (findShop registry name).isSome)).length := by
  have h1 : (processRow registry snap oracle selected row).1 =
      selected.filterMap (fun name => (findShop registry name).map
        (fun shop => shopResult oracle row name
          (mkCall shop fetched.numericVariantId row.changes))) := by
    simp [processRow, h, processShops_eq]
  exact ⟨h1, by rw [h1, filterMap_findShop_length]⟩

/-- Witness for C6: two resolvable names and one unresolvable name yield
exactly two results, in order. -/
theorem update_one_result_per_resolvable_shop_witness :
    (processRow [⟨"SI", "si.example.com", "tokSI"⟩, ⟨"HR", "hr.example.com", "tokHR"⟩]
        (fun k => if k = "SKU123" then
            some ⟨⟨"gid://shopify/ProductVariant/1234567890", "SKU123", "29.99", 5, "T", "img"⟩,
                  "1234567890"⟩
          else none)
        (fun _ => .success) ["SI", "NOPE", "HR"] ⟨"SKU123", [("price", "25.99")], 1⟩).1 =
      (["SI", "NOPE", "HR"].filterMap (fun name =>
        (findShop [⟨"SI", "si.example.com", "tokSI"⟩, ⟨"HR", "hr.example.com", "tokHR"⟩] name).map
        (fun shop => shopResult (fun _ => .success) ⟨"SKU123", [("price", "25.99")], 1⟩ name
          (mkCall shop "1234567890" [("price", "25.99")])))) ∧
    (processRow [⟨"SI", "si.example.com", "tokSI"⟩, ⟨"HR", "hr.example.com", "tokHR"⟩]
        (fun k => if k = "SKU123" then
            some ⟨⟨"gid://shopify/ProductVariant/1234567890", "SKU123", "29.99", 5, "T", "img"⟩,
                  "1234567890"⟩
          else none)
        (fun _ => .success) ["SI", "NOPE", "HR"] ⟨"SKU123", [("price", "25.99")], 1⟩).1.length =
      (["SI", "NOPE", "HR"].filter (fun name =>
        (findShop [⟨"SI", "si.example.com", "tokSI"⟩, ⟨"HR", "hr.example.com", "tokHR"⟩]
          name).isSome)).length :=
  update_one_result_per_resolvable_shop
    [⟨"SI", "si.example.com", "tokSI"⟩, ⟨"HR", "hr.example.com", "tokHR"⟩]
    (fun k => if k = "SKU123" then
        some ⟨⟨"gid://shopify/ProductVariant/1234567890", "SKU123", "29.99", 5, "T", "img"⟩,
              "1234567890"⟩
      else none)
    (fun _ => .success) ["SI", "NOPE", "HR"] ⟨"SKU123", [("price", "25.99")], 1⟩
    ⟨⟨"gid://shopify/ProductVariant/1234567890", "SKU123", "29.99", 5, "T", "img"⟩, "1234567890"⟩
    (by simp)

/-- C7: individual call failures are contained.  The calls a row issues are
exactly one per resolvable selected shop and do not depend on any call's
outcome (so a failure never prevents the later calls of the row), each
attempted call yields exactly one result entry, and the handler answers a
well-formed request 200 with the full result list whatever the outcomes. -/
theorem update_call_failure_contained (registry : List Shop) (snap : SnapshotStore)
    (oracle oracle' : ShopCall → CallOutcome) (selected : List String)
    (rows : List Row) (row : Row) (fetched : Snapshot)
    (h : snap row.sku = some fetched) :
    (processRow registry snap oracle selected row).2 =
      selected.filterMap (fun name => (findShop registry name).map
        (fun shop => mkCall shop fetched.numericVariantId row.changes)) ∧
    (processRow registry snap oracle selected row).2 =
      (processRow registry snap oracle' selected row).2 ∧
    (processRow registry snap oracle selected row).1.length =
      (processRow registry snap oracle selected row).2.length ∧
    (updateHandler registry snap oracle ⟨some rows, some selected⟩).response =
      .ok "Update process completed." (processRows registry snap oracle selected rows).1 ∧
    updateStatus (updateHandler registry snap oracle
      ⟨some rows, some selected⟩).response = 200 := by
  have h1 : ∀ o : ShopCall → CallOutcome, (processRow registry snap o selected row).2 =
      selected.filterMap (fun name => (findShop registry name).map
        (fun shop => mkCall shop fetched.numericVariantId row.changes)) := by
    intro o
    simp [processRow, h, processShops_eq]
  have h2 : (processRow registry snap oracle selected row).1 =
      selected.filterMap (fun name => (findShop registry name).map
        (fun shop => shopResult oracle row name
          (mkCall shop fetched.numericVariantId row.changes))) := by
    simp [processRow, h, processShops_eq]
  refine ⟨h1 oracle, (h1 oracle).trans (h1 oracle').symm, ?_, rfl, rfl⟩
  rw [h1 oracle, h2, filterMap_findShop_length, filterMap_findShop_length]

/-- Witness for C7: one shop's call fails, the other still happens; the
handler answers 200 with both results. -/
theorem update_call_failure_contained_witness :
    (processRow [⟨"SI", "si.example.com", "tokSI"⟩, ⟨"HR", "hr.example.com", "tokHR"⟩]
        (fun k => if k = "SKU123" then
            some ⟨⟨"gid://shopify/ProductVariant/1234567890", "SKU123", "29.99", 5, "T", "img"⟩,
                  "1234567890"⟩
          else none)
        (fun c => if c.token = "tokSI" then .failure (some "[boom]") "Request failed"
          else .success)
        ["SI", "HR"] ⟨"SKU123", [("price", "25.99")], 1⟩).2 =
      (["SI", "HR"].filterMap (fun name =>
        (findShop [⟨"SI", "si.example.com", "tokSI"⟩, ⟨"HR", "hr.example.com", "tokHR"⟩] name).map
        (fun shop => mkCall shop "1234567890" [("price", "25.99")]))) ∧
    (processRow [⟨"SI", "si.example.com", "tokSI"⟩, ⟨"HR", "hr.example.com", "tokHR"⟩]
        (fun k => if k = "SKU123" then
            some ⟨⟨"gid://shopify/ProductVariant/1234567890", "SKU123", "29.99", 5, "T", "img"⟩,
                  "1234567890"⟩
          else none)
        (fun c => if c.token = "tokSI" then .failure (some "[boom]") "Request failed"
          else .success)
        ["SI", "HR"] ⟨"SKU123", [("price", "25.99")], 1⟩).2 =
      (processRow [⟨"SI", "si.example.com", "tokSI"⟩, ⟨"HR", "hr.example.com", "tokHR"⟩]
        (fun k => if k = "SKU123" then
            some ⟨⟨"gid://shopify/ProductVariant/1234567890", "SKU123", "29.99", 5, "T", "img"⟩,
                  "1234567890"⟩
          else none)
        (fun _ => .success)
        ["SI", "HR"] ⟨"SKU123", [("price", "25.99")], 1⟩).2 ∧
    (processRow [⟨"SI", "si.example.com", "tokSI"⟩, ⟨"HR", "hr.example.com", "tokHR"⟩]
        (fun k => if k = "SKU123" then
            some ⟨⟨"gid://shopify/ProductVariant/1234567890", "SKU123", "29.99", 5, "T", "img"⟩,
                  "1234567890"⟩
          else none)
        (fun c => if c.token = "tokSI" then .failure (some "[boom]") "Request failed"
          else .success)
        ["SI", "HR"] ⟨"SKU123", [("price", "25.99")], 1⟩).1.length =
      (processRow [⟨"SI", "si.example.com", "tokSI"⟩, ⟨"HR", "hr.example.com", "tokHR"⟩]
        (fun k => if k = "SKU123" then
            some ⟨⟨"gid://shopify/ProductVariant/1234567890", "SKU123", "29.99", 5, "T", "img"⟩,
                  "1234567890"⟩
          else none)
        (fun c => if c.token = "tokSI" then .failure (some "[boom]") "Request failed"
          else .success)
        ["SI", "HR"] ⟨"SKU123", [("price", "25.99")], 1⟩).2.length ∧
    (updateHandler [⟨"SI", "si.example.com", "tokSI"⟩, ⟨"HR", "hr.example.com", "tokHR"⟩]
        (fun k => if k = "SKU123" then
            some ⟨⟨"gid://shopify/ProductVariant/1234567890", "SKU123", "29.99", 5, "T", "img"⟩,
                  "1234567890"⟩
          else none)
        (fun c => if c.token = "tokSI" then .failure (some "[boom]") "Request failed"
          else .success)
        ⟨some [⟨"SKU123", [("price", "25.99")], 1⟩], some ["SI", "HR"]⟩).response =
      .ok "Update process completed."
        (processRows [⟨"SI", "si.example.com", "tokSI"⟩, ⟨"HR", "hr.example.com", "tokHR"⟩]
          (fun k => if k = "SKU123" then
              some ⟨⟨"gid://shopify/ProductVariant/1234567890", "SKU123", "29.99", 5, "T", "img"⟩,
                    "1234567890"⟩
            else none)
          (fun c => if c.token = "tokSI" then .failure (some "[boom]") "Request failed"
            else .success)
          ["SI", "HR"] [⟨"SKU123", [("price", "25.99")], 1⟩]).1 ∧
    updateStatus ((updateHandler
        [⟨"SI", "si.example.com", "tokSI"⟩, ⟨"HR", "hr.example.com", "tokHR"⟩]
        (fun k => if k = "SKU123" then
            some ⟨⟨"gid://shopify/ProductVariant/1234567890", "SKU123", "29.99", 5, "T", "img"⟩,
                  "1234567890"⟩
          else none)
        (fun c => if c.token = "tokSI" then .failure (some "[boom]") "Request failed"
          else .success)
        ⟨some [⟨"SKU123", [("price", "25.99")], 1⟩], some ["SI", "HR"]⟩).response) = 200 :=
  update_call_failure_contained
    [⟨"SI", "si.example.com", "tokSI"⟩, ⟨"HR", "hr.example.com", "tokHR"⟩]
    (fun k => if k = "SKU123" then
        some ⟨⟨"gid://shopify/ProductVariant/1234567890", "SKU123", "29.99", 5, "T", "img"⟩,
              "1234567890"⟩
      else none)
    (fun c => if c.token = "tokSI" then .failure (some "[boom]") "Request failed"
      else .success)
    (fun _ => .success)
    ["SI", "HR"] [⟨"SKU123", [("price", "25.99")], 1⟩] ⟨"SKU123", [("price", "25.99")], 1⟩
    ⟨⟨"gid://shopify/ProductVariant/1234567890", "SKU123", "29.99", 5, "T", "img"⟩, "1234567890"⟩
    (by simp)

/-- C8: on a successful fetch, the `numericVariantId` sent back to the
caller and written into the snapshot store is the trailing segment of the
upstream's composite variant id (the part after the last `/`, e.g.
`gid://shopify/ProductVariant/1234567890` yields `1234567890`), the stored
entry is keyed by the requested SKU, and no other key is touched. -/
theorem fetch_success_stores_numeric_id (snap : SnapshotStore) (sku : String)
    (v : Variant) (rest : List Variant) (h : sku ≠ "") :
    (fetchHandler snap (some sku) (.response none (v :: rest))).response =
      .ok ⟨v, lastSegment v.id⟩ ∧
    (fetchHandler snap (some sku) (.response none (v :: rest))).store sku =
      some ⟨v, lastSegment v.id⟩ ∧
    (∀ k, k ≠ sku →
      (fetchHandler snap (some sku) (.response none (v :: rest))).store k = snap k) ∧
    lastSegment "gid://shopify/ProductVariant/1234567890" = "1234567890" := by
  refine ⟨by simp [fetchHandler, h], by simp [fetchHandler, h], ?_, by decide⟩
  intro k hk
  simp [fetchHandler, h, hk]

/-- Witness for C8 at a concrete SKU and upstream variant node. -/
theorem fetch_success_stores_numeric_id_witness :
    (fetchHandler (fun _ => none) (some "SKU123")
        (.response none [⟨"gid://shopify/ProductVariant/1234567890", "SKU123", "29.99",
          5, "T", "img"⟩])).response =
      .ok ⟨⟨"gid://shopify/ProductVariant/1234567890", "SKU123", "29.99", 5, "T", "img"⟩,
        lastSegment "gid://shopify/ProductVariant/1234567890"⟩ ∧
    (fetchHandler (fun _ => none) (some "SKU123")
        (.response none [⟨"gid://shopify/ProductVariant/1234567890", "SKU123", "29.99",
          5, "T", "img"⟩])).store "SKU123" =
      some ⟨⟨"gid://shopify/ProductVariant/1234567890", "SKU123", "29.99", 5, "T", "img"⟩,
        lastSegment "gid://shopify/ProductVariant/1234567890"⟩ ∧
    (∀ k, k ≠ "SKU123" →
      (fetchHandler (fun _ => none) (some "SKU123")
        (.response none [⟨"gid://shopify/ProductVariant/1234567890", "SKU123", "29.99",
          5, "T", "img"⟩])).store k = (fun _ => none : SnapshotStore) k) ∧
    lastSegment "gid://shopify/ProductVariant/1234567890" = "1234567890" :=
  fetch_success_stores_numeric_id (fun _ => none) "SKU123"
    ⟨"gid://shopify/ProductVariant/1234567890", "SKU123", "29.99", 5, "T", "img"⟩ []
    (by decide)

/-- C9: the three fetch error conditions are answered distinguishably — an
empty upstream match list gives the 404 not-found response; an upstream
error payload gives a 500 whose body surfaces the upstream detail verbatim
in its `error` field with no `details`; a transport failure gives a 500
whose body carries the fixed error string and the transport message in
`details`.  The three (status, body) pairs are pairwise distinct. -/
theorem fetch_error_responses_distinct (snap : SnapshotStore) (sku : String)
    (errs msg : String) (edges : List Variant) (h : sku ≠ "") :
    (fetchHandler snap (some sku) (.response none [])).response = .notFound ∧
    fetchStatus FetchResponse.notFound = 404 ∧
    (fetchHandler snap (some sku) (.response (some errs) edges)).response =
      .upstreamError errs ∧
    fetchBody (.upstreamError errs) = ⟨some errs, none, none, none⟩ ∧
    fetchStatus (.upstreamError errs) = 500 ∧
    (fetchHandler snap (some sku) (.transport msg)).response = .transportError msg ∧
    fetchBody (.transportError msg) = ⟨some "Fetch failed", some msg, none, none⟩ ∧
    fetchStatus (.transportError msg) = 500 ∧
    fetchStatus FetchResponse.notFound ≠ fetchStatus (.upstreamError errs) ∧
    fetchStatus FetchResponse.notFound ≠ fetchStatus (.transportError msg) ∧
    fetchBody (.upstreamError errs) ≠ fetchBody (.transportError msg) := by
  refine ⟨by simp [fetchHandler, h], rfl, by simp [fetchHandler, h], rfl, rfl,
    by simp [fetchHandler, h], rfl, rfl, by simp [fetchStatus], by simp [fetchStatus], ?_⟩
  simp [fetchBody, FetchBody.mk.injEq]

/-- Witness for C9 at concrete inputs. -/
theorem fetch_error_responses_distinct_witness :
    (fetchHandler (fun _ => none) (some "SKU123") (.response none [])).response =
      .notFound ∧
    fetchStatus FetchResponse.notFound = 404 ∧
    (fetchHandler (fun _ => none) (some "SKU123")
        (.response (some "[graphql boom]") [])).response =
      .upstreamError "[graphql boom]" ∧
    fetchBody (.upstreamError "[graphql boom]") =
      ⟨some "[graphql boom]", none, none, none⟩ ∧
    fetchStatus (.upstreamError "[graphql boom]") = 500 ∧
    (fetchHandler (fun _ => none) (some "SKU123") (.transport "socket hang up")).response =
      .transportError "socket hang up" ∧
    fetchBody (.transportError "socket hang up") =
      ⟨some "Fetch failed", some "socket hang up", none, none⟩ ∧
    fetchStatus (.transportError "socket hang up") = 500 ∧
    fetchStatus FetchResponse.notFound ≠ fetchStatus (.upstreamError "[graphql boom]") ∧
    fetchStatus FetchResponse.notFound ≠ fetchStatus (.transportError "socket hang up") ∧
    fetchBody (.upstreamError "[graphql boom]") ≠
      fetchBody (.transportError "socket hang up") :=
  fetch_error_responses_distinct (fun _ => none) "SKU123" "[graphql boom]"
    "socket hang up" [] (by decide)

/-- C1: after a successful fetch of a SKU, every outbound update call for a
row bearing that SKU is built from the `numericVariantId` derived from the
fetch response (the trailing segment of the fetched variant's id): its URL
is the shop's variant URL for that identifier, and — whenever that
identifier differs from the SKU — the URL is not the one that would have
been built from the raw SKU. -/
theorem update_uses_fetched_numeric_id (registry : List Shop) (snap : SnapshotStore)
    (oracle : ShopCall → CallOutcome) (selected : List String) (row : Row)
    (sku : String) (v : Variant) (rest : List Variant) (call : ShopCall)
    (hsku : sku ≠ "") (hrow : row.sku = sku)
    (hcall : call ∈ (processRow registry
        (fetchHandler snap (some sku) (.response none (v :: rest))).store
        oracle selected row).2) :
    ∃ name ∈ selected, ∃ shop, findShop registry name = some shop ∧
      call = mkCall shop (lastSegment v.id) row.changes ∧
      call.url = shopUrl shop.domain (lastSegment v.id) ∧
      (lastSegment v.id ≠ sku → call.url ≠ shopUrl shop.domain sku) := by
  have hstore : (fetchHandler snap (some sku) (.response none (v :: rest))).store row.sku
      = some ⟨v, lastSegment v.id⟩ := by
    simp [fetchHandler, hsku, hrow]
  rw [show processRow registry
        (fetchHandler snap (some sku) (.response none (v :: rest))).store
        oracle selected row =
      processShops registry oracle row (lastSegment v.id) selected by
    simp [processRow, hstore]] at hcall
  rw [processShops_eq] at hcall
  simp only [List.mem_filterMap, Option.map_eq_some'] at hcall
  obtain ⟨name, hname, shop, hshop, hmk⟩ := hcall
  refine ⟨name, hname, shop, hshop, hmk.symm, by rw [← hmk]; rfl, ?_⟩
  intro hne hurl
  exact hne (shopUrl_inj shop.domain (lastSegment v.id) sku (by rw [← hmk] at hurl; exact hurl))

/-- Witness for C1: a fetch of `SKU123` followed by an update row for
`SKU123` against one resolvable shop; the one call issued is built from
`1234567890`, not from `SKU123`. -/
theorem update_uses_fetched_numeric_id_witness :
    ∃ name ∈ ["SI"], ∃ shop,
      findShop [⟨"SI", "si.example.com", "tokSI"⟩] name = some shop ∧
      mkCall ⟨"SI", "si.example.com", "tokSI"⟩
          (lastSegment "gid://shopify/ProductVariant/1234567890") [("price", "25.99")] =
        mkCall shop (lastSegment "gid://shopify/ProductVariant/1234567890")
          (Row.mk "SKU123" [("price", "25.99")] 1).changes ∧
      (mkCall ⟨"SI", "si.example.com", "tokSI"⟩
          (lastSegment "gid://shopify/ProductVariant/1234567890") [("price", "25.99")]).url =
        shopUrl shop.domain (lastSegment "gid://shopify/ProductVariant/1234567890") ∧
      (lastSegment "gid://shopify/ProductVariant/1234567890" ≠ "SKU123" →
        (mkCall ⟨"SI", "si.example.com", "tokSI"⟩
          (lastSegment "gid://shopify/ProductVariant/1234567890") [("price", "25.99")]).url ≠
          shopUrl shop.domain "SKU123") :=
  update_uses_fetched_numeric_id [⟨"SI", "si.example.com", "tokSI"⟩] (fun _ => none)
    (fun _ => .success) ["SI"] ⟨"SKU123", [("price", "25.99")], 1⟩ "SKU123"
    ⟨"gid://shopify/ProductVariant/1234567890", "SKU123", "29.99", 5, "T", "img"⟩ []
    (mkCall ⟨"SI", "si.example.com", "tokSI"⟩
      (lastSegment "gid://shopify/ProductVariant/1234567890") [("price", "25.99")])
    (by decide) rfl (by decide)

end FourE
